import Mathlib

/-!
Verification of the energy-accumulation engine of the
`ha-unifi-energy-helper` integration (two variants:
`custom_components/unifi_energy_helper` event-driven per-port accumulator and
`custom_components/unifi_helper` polling per-device aggregate), its restore,
reset, finalize, discovery and config-flow logic.

Modelling conventions: timestamps are rationals measured in seconds and
`None` is `Option.none`.  Python float values are embedded at two levels.
The full model (`PyFloat`, `StateValF`, `AccStateF`,
`async_power_changed_f`) represents every value `float()` may return —
finite values as exact rationals plus `inf`, `-inf` and `nan` with their
IEEE 754 addition/multiplication behaviour — since `float("inf")` and
`float("nan")` raise no exception and therefore pass the handlers'
`try/except` validation.  The finite-fragment model (`StateVal`,
`AccState`, `async_power_changed`, ...) restricts every float to a finite
rational; the theorem `power_changed_agrees_on_finite` proves it is exactly
the restriction of the full model along that embedding, so arithmetic
identities over finite data may be stated in `ℚ`.
-/

namespace UnifiEnergy

/-- From `const.py`: `SECONDS_TO_HOURS = 1 / 3600`. -/
def SECONDS_TO_HOURS : ℚ := 1 / 3600

/-- From `const.py`: `WATTS_TO_KILOWATTS = 0.001`. -/
def WATTS_TO_KILOWATTS : ℚ := 1 / 1000

/-- Accumulation state of `UniFiEnergyAccumulationSensor`
(`unifi_energy_helper/sensor.py`, `__init__` lines 272-275):
`_total_energy_kwh`, `_last_update_time`, `_last_power_watts`. -/
structure AccState where
  total_energy_kwh : ℚ
  last_power_watts : Option ℚ
  last_update_time : Option ℚ
  deriving Repr, DecidableEq

/-- Initial accumulation state set in `__init__`:
total 0.0, no last power, no last update time. -/
def accInit : AccState :=
  { total_energy_kwh := 0, last_power_watts := none, last_update_time := none }

/-- Embedding of `_calculate_energy_increment(current_time, new_power_watts)`
(`unifi_energy_helper/sensor.py` lines 479-529): if both tracking variables
are set and the elapsed time is strictly positive, charge the previous power
value for the elapsed interval; afterwards, only when a new power value is
given, refresh both tracking variables. -/
def calculate_energy_increment (s : AccState) (current_time : ℚ)
    (new_power_watts : Option ℚ) : AccState :=
  let s1 : AccState :=
    match s.last_update_time, s.last_power_watts with
    | some t0, some p0 =>
      let time_delta_seconds := current_time - t0
      if 0 < time_delta_seconds then
        { s with total_energy_kwh := s.total_energy_kwh +
            p0 * time_delta_seconds * SECONDS_TO_HOURS * WATTS_TO_KILOWATTS }
      else s
    | _, _ => s
  match new_power_watts with
  | some p => { s1 with last_power_watts := some p, last_update_time := some current_time }
  | none => s1

/-- A Home Assistant state string as seen by the handlers, restricted to
the finite fragment: the two sentinel strings, a string `float()` rejects,
or a string parsing to the finite float `v`.  Strings such as `"inf"` or
`"nan"`, which `float()` accepts with a non-finite value, are carried by
the full alphabet `StateValF`; `power_changed_agrees_on_finite` proves the
handler below is the restriction of the full handler to this fragment. -/
inductive StateVal where
  | unknown : StateVal
  | unavailable : StateVal
  | unparseable : StateVal
  | numeric (v : ℚ) : StateVal
  deriving Repr, DecidableEq

/-- Embedding of `_async_power_changed(event)` (`unifi_energy_helper/sensor.py`
lines 551-572): discard a missing state, the `unknown`/`unavailable`
sentinels, and values `float()` rejects; otherwise run
`_calculate_energy_increment(current_time, new_power_watts)`. -/
def async_power_changed (s : AccState) (new_state : Option StateVal)
    (current_time : ℚ) : AccState :=
  match new_state with
  | none => s
  | some StateVal.unknown => s
  | some StateVal.unavailable => s
  | some StateVal.unparseable => s
  | some (StateVal.numeric v) => calculate_energy_increment s current_time (some v)

/-- Embedding of `_reset_energy()` (lines 466-477): zero the total, set
`_last_update_time` to now, keep the last power reading. -/
def reset_energy (s : AccState) (now : ℚ) : AccState :=
  { s with total_energy_kwh := 0, last_update_time := some now }

/-- Embedding of the accumulation part of `async_will_remove_from_hass()`
(lines 434-452): one final `_calculate_energy_increment(current_time)` call
with no new power value. -/
def will_remove_from_hass (s : AccState) (now : ℚ) : AccState :=
  calculate_energy_increment s now none

/-- A whole run of the event-driven handler over a sequence of
(state, timestamp) notifications, in delivery order. -/
def process_samples (s : AccState) (evs : List (Option StateVal × ℚ)) : AccState :=
  evs.foldl (fun st ev => async_power_changed st ev.1 ev.2) s

/-- The tracked last power reading, when present, is non-negative. -/
def AccNonneg (s : AccState) : Prop :=
  ∀ p, s.last_power_watts = some p → 0 ≤ p

/-- A notification whose numeric value, if any, is non-negative. -/
def EventNonneg (ev : Option StateVal) : Prop :=
  ∀ v, ev = some (StateVal.numeric v) → 0 ≤ v

/-- A persisted `native_value` as seen by the restore path: either a value
`float()` accepts (the finite float `v`) or one it rejects. -/
inductive RestoredVal where
  | parses (v : ℚ) : RestoredVal
  | unparseable : RestoredVal
  deriving Repr, DecidableEq

/-- Embedding of the restore step of `async_added_to_hass`
(`unifi_energy_helper/sensor.py` lines 356-376, and identically
`unifi_helper/sensor.py` lines 163-181): if last sensor data exist with a
non-None `native_value` that `float()` accepts, adopt it as the total;
otherwise (missing data or a `ValueError`/`TypeError`) leave the state
unchanged and continue. -/
def restore_total (s : AccState) (native : Option RestoredVal) : AccState :=
  match native with
  | some (RestoredVal.parses v) => { s with total_energy_kwh := v }
  | some RestoredVal.unparseable => s
  | none => s

/-- Python's `round(q, 3)` on an exact rational: scale by 1000, round half to
even, scale back. -/
def pyRound3 (q : ℚ) : ℚ :=
  let m := q * 1000
  let f : ℤ := Int.floor m
  let frac := m - (f : ℚ)
  let r : ℤ :=
    if frac < 1 / 2 then f
    else if 1 / 2 < frac then f + 1
    else if f % 2 = 0 then f else f + 1
  (r : ℚ) / 1000

/-- Embedding of the `native_value` property (`unifi_energy_helper/sensor.py`
lines 319-322): `round(self._total_energy_kwh, 3)`. -/
def native_value (s : AccState) : ℚ :=
  pyRound3 s.total_energy_kwh

/-- One emit/restore cycle: `RestoreSensor` persists the entity's
`native_value`; after a restart a fresh accumulator restores its total from
that persisted value. -/
def restart_cycle (s : AccState) : AccState :=
  restore_total accInit (some (RestoredVal.parses (native_value s)))

/-- A Python float: a finite value (kept exact as a rational), one of the
two infinities, or `nan`.  `float()` returns any of these — `float("inf")`
and `float("nan")` raise no exception. -/
inductive PyFloat where
  | fin (v : ℚ) : PyFloat
  | pinf : PyFloat
  | ninf : PyFloat
  | nan : PyFloat
  deriving Repr, DecidableEq

/-- IEEE 754 addition on `PyFloat` (finite arithmetic kept exact):
`nan` absorbs, opposite infinities give `nan`, an infinity absorbs
finite values. -/
def PyFloat.add : PyFloat → PyFloat → PyFloat
  | PyFloat.fin a, PyFloat.fin b => PyFloat.fin (a + b)
  | PyFloat.nan, _ => PyFloat.nan
  | _, PyFloat.nan => PyFloat.nan
  | PyFloat.pinf, PyFloat.ninf => PyFloat.nan
  | PyFloat.ninf, PyFloat.pinf => PyFloat.nan
  | PyFloat.pinf, _ => PyFloat.pinf
  | _, PyFloat.pinf => PyFloat.pinf
  | PyFloat.ninf, _ => PyFloat.ninf
  | _, PyFloat.ninf => PyFloat.ninf

/-- IEEE 754 multiplication on `PyFloat` (finite arithmetic kept exact):
`nan` absorbs, an infinity times zero is `nan`, otherwise signs
multiply. -/
def PyFloat.mul : PyFloat → PyFloat → PyFloat
  | PyFloat.fin a, PyFloat.fin b => PyFloat.fin (a * b)
  | PyFloat.nan, _ => PyFloat.nan
  | _, PyFloat.nan => PyFloat.nan
  | PyFloat.pinf, PyFloat.fin b =>
    if 0 < b then PyFloat.pinf else if b < 0 then PyFloat.ninf else PyFloat.nan
  | PyFloat.fin a, PyFloat.pinf =>
    if 0 < a then PyFloat.pinf else if a < 0 then PyFloat.ninf else PyFloat.nan
  | PyFloat.ninf, PyFloat.fin b =>
    if 0 < b then PyFloat.ninf else if b < 0 then PyFloat.pinf else PyFloat.nan
  | PyFloat.fin a, PyFloat.ninf =>
    if 0 < a then PyFloat.ninf else if a < 0 then PyFloat.pinf else PyFloat.nan
  | PyFloat.pinf, PyFloat.pinf => PyFloat.pinf
  | PyFloat.pinf, PyFloat.ninf => PyFloat.ninf
  | PyFloat.ninf, PyFloat.pinf => PyFloat.ninf
  | PyFloat.ninf, PyFloat.ninf => PyFloat.pinf

/-- A Home Assistant state string as seen by the handlers, full alphabet:
the two sentinel strings, a string `float()` rejects with
`ValueError`/`TypeError`, or a string `float()` accepts — whose value is
any `PyFloat`, finite or not (`"inf"`, `"-inf"`, `"nan"` are accepted). -/
inductive StateValF where
  | unknown : StateValF
  | unavailable : StateValF
  | unparseable : StateValF
  | numeric (p : PyFloat) : StateValF
  deriving Repr, DecidableEq

/-- Accumulation state of `UniFiEnergyAccumulationSensor` over the full
float domain: the total and the tracked power are arbitrary Python floats
(timestamps always come from `dt_util.utcnow()` and stay finite). -/
structure AccStateF where
  total_energy_kwh : PyFloat
  last_power_watts : Option PyFloat
  last_update_time : Option ℚ
  deriving Repr, DecidableEq

/-- Embedding of `_calculate_energy_increment(current_time,
new_power_watts)` (`unifi_energy_helper/sensor.py` lines 479-529) over the
full float domain: same control flow as `calculate_energy_increment`, with
the increment `last_power × Δt × (1/3600) × 0.001` computed by IEEE
arithmetic (so a non-finite tracked power propagates into the total). -/
def calculate_energy_increment_f (s : AccStateF) (current_time : ℚ)
    (new_power_watts : Option PyFloat) : AccStateF :=
  let s1 : AccStateF :=
    match s.last_update_time, s.last_power_watts with
    | some t0, some p0 =>
      let time_delta_seconds := current_time - t0
      if 0 < time_delta_seconds then
        { s with
            total_energy_kwh :=
              PyFloat.add s.total_energy_kwh
                (PyFloat.mul
                  (PyFloat.mul (PyFloat.mul p0 (PyFloat.fin time_delta_seconds))
                    (PyFloat.fin SECONDS_TO_HOURS))
                  (PyFloat.fin WATTS_TO_KILOWATTS)) }
      else s
    | _, _ => s
  match new_power_watts with
  | some p => { s1 with last_power_watts := some p, last_update_time := some current_time }
  | none => s1

/-- Embedding of `_async_power_changed(event)` (`unifi_energy_helper/
sensor.py` lines 551-572) over the full float domain: a missing state, the
sentinels and `float()`-rejected values are discarded; every value
`float()` accepts — including `inf`/`-inf`/`nan` — reaches
`_calculate_energy_increment(current_time, new_power_watts)`. -/
def async_power_changed_f (s : AccStateF) (new_state : Option StateValF)
    (current_time : ℚ) : AccStateF :=
  match new_state with
  | none => s
  | some StateValF.unknown => s
  | some StateValF.unavailable => s
  | some StateValF.unparseable => s
  | some (StateValF.numeric p) => calculate_energy_increment_f s current_time (some p)

/-- The incoming states the handler actually discards: a missing state, one
of the two sentinel strings, or a value `float()` rejects.  A state parsing
to a non-finite float is not among them. -/
def DiscardedSample (ev : Option StateValF) : Prop :=
  ev = none ∨ ev = some StateValF.unknown ∨ ev = some StateValF.unavailable
    ∨ ev = some StateValF.unparseable

/-- The embedding of a finite-fragment accumulator state into the full
float domain. -/
def AccState.toF (s : AccState) : AccStateF :=
  { total_energy_kwh := PyFloat.fin s.total_energy_kwh,
    last_power_watts := s.last_power_watts.map PyFloat.fin,
    last_update_time := s.last_update_time }

/-- The embedding of a finite-fragment state value into the full
alphabet. -/
def StateVal.toF : StateVal → StateValF
  | StateVal.unknown => StateValF.unknown
  | StateVal.unavailable => StateValF.unavailable
  | StateVal.unparseable => StateValF.unparseable
  | StateVal.numeric v => StateValF.numeric (PyFloat.fin v)

/-- A concrete accumulator state over the full float domain: total 0 kWh,
last power 10 W, last sample at t = 0 s. -/
def infDemoState : AccStateF :=
  { total_energy_kwh := PyFloat.fin 0,
    last_power_watts := some (PyFloat.fin 10),
    last_update_time := some 0 }

/-- Accumulation state of the polling aggregate variant
(`unifi_helper/sensor.py`, `__init__` lines 135-137): `_total_energy_kwh`
and `_last_update`. -/
structure AggState where
  total_energy_kwh : ℚ
  last_update : Option ℚ
  deriving Repr, DecidableEq

/-- The loop of `_async_update` over all bound sources
(`unifi_helper/sensor.py` lines 230-241): sum of the values of the readings
that are present, not a sentinel and parseable, together with the count of
such valid readings. -/
def sum_valid_power (readings : List (Option StateVal)) : ℚ × ℕ :=
  readings.foldl
    (fun acc r =>
      match r with
      | some (StateVal.numeric v) => (acc.1 + v, acc.2 + 1)
      | _ => acc)
    (0, 0)

/-- Embedding of `_async_update(now)` (`unifi_helper/sensor.py` lines
215-259): on the first tick just record the baseline; otherwise compute the
elapsed time since the last tick — with no sign check — add
`total_power × Δt × (1/3600) × 0.001` whenever at least one reading is
valid, and always advance `_last_update`. -/
def async_update (s : AggState) (current_time : ℚ)
    (readings : List (Option StateVal)) : AggState :=
  match s.last_update with
  | none => { s with last_update := some current_time }
  | some t0 =>
    let time_delta_seconds := current_time - t0
    let s1 : AggState :=
      if 0 < (sum_valid_power readings).2 then
        { s with total_energy_kwh := s.total_energy_kwh +
            (sum_valid_power readings).1 * time_delta_seconds
              * SECONDS_TO_HOURS * WATTS_TO_KILOWATTS }
      else s
    { s1 with last_update := some current_time }

/-- Whether `pat` occurs as a prefix of `s`, character by character. -/
def charsStartWith : List Char → List Char → Bool
  | _, [] => true
  | [], _ :: _ => false
  | c :: cs, p :: ps => (c == p) && charsStartWith cs ps

/-- Whether `pat` occurs as a contiguous substring of `s` (Python's
`pat in s`). -/
def charsContain (s pat : List Char) : Bool :=
  match s with
  | [] => pat.isEmpty
  | _ :: rest => charsStartWith s pat || charsContain rest pat

/-- Python's `str.lower()` on the ASCII identifiers involved here. -/
def strToLower (s : String) : String :=
  String.mk (s.data.map Char.toLower)

/-- Python's `pat in s` on strings. -/
def containsSub (s pat : String) : Bool :=
  charsContain s.data pat.data

/-- Python's `s.startswith(pat)` on strings. -/
def strStartsWith (s pat : String) : Bool :=
  charsStartWith s.data pat.data

/-- The registry-entry fields read by the discovery and config-flow code. -/
structure RegistryEntry where
  entity_id : String
  platform : String
  device_id : Option String
  original_device_class : String
  unit_of_measurement : String
  disabled_by : Option String
  unique_id : Option String
  deriving Repr, DecidableEq

/-- Embedding of `_is_unifi_power_entity(entry)`
(`unifi_energy_helper/sensor.py` lines 28-53): a UniFi-platform enabled
`sensor.` entity with a device, device class power and unit W, whose
entity id or unique id contains (lower-cased) one of
`port`, `poe`, `outlet`, `pdu`. -/
def is_unifi_power_entity (e : RegistryEntry) : Bool :=
  if ¬ (e.platform = "unifi"
      ∧ strStartsWith e.entity_id "sensor." = true
      ∧ e.device_id ≠ none
      ∧ e.original_device_class = "power"
      ∧ e.unit_of_measurement = "W"
      ∧ e.disabled_by = none) then
    false
  else
    let entity_lower := strToLower e.entity_id
    let unique_lower := strToLower ((e.unique_id).getD "")
    containsSub entity_lower "port" || containsSub entity_lower "poe"
      || containsSub entity_lower "outlet" || containsSub entity_lower "pdu"
      || containsSub unique_lower "port" || containsSub unique_lower "poe"
      || containsSub unique_lower "outlet" || containsSub unique_lower "pdu"

/-- The discovery bookkeeping held in `hass.data[DOMAIN]` together with the
history of accumulator creations: `tracked_poe_entities` is the claimed-
sources set, and `added_sensors` records, append-only and in order, the
power entity id bound by each accumulator ever passed to
`async_add_entities`. -/
structure DiscoveryState where
  tracked_poe_entities : List String
  added_sensors : List String
  deriving Repr, DecidableEq

/-- Discovery bookkeeping before the first setup call. -/
def discInit : DiscoveryState :=
  { tracked_poe_entities := [], added_sensors := [] }

/-- Embedding of the discovery part of `async_setup_entry`
(`unifi_energy_helper/sensor.py` lines 56-121): the claimed-sources set is
re-initialised to empty (`hass.data[DOMAIN]["tracked_poe_entities"] =
set()`), then every qualifying registry entry is tracked and one
accumulator is created and added for it. -/
def async_setup_entry (reg : List RegistryEntry) (d : DiscoveryState) :
    DiscoveryState :=
  let qualifying := (reg.filter (fun e => is_unifi_power_entity e)).map
    (fun e => e.entity_id)
  { tracked_poe_entities := qualifying,
    added_sensors := d.added_sensors ++ qualifying }

/-- Embedding of `_async_entity_registry_updated` for a `create` action (or
an `update` that just enabled the entity) (`unifi_energy_helper/sensor.py`
lines 124-204): an entity already in the claimed set is skipped before
anything is created; otherwise, if the registry still has the entry and it
qualifies and has a device, it is claimed and one accumulator is created. -/
def entity_registry_updated_create (reg : List RegistryEntry)
    (d : DiscoveryState) (entity_id : String) : DiscoveryState :=
  if entity_id ∈ d.tracked_poe_entities then d
  else
    match reg.find? (fun e => e.entity_id == entity_id) with
    | none => d
    | some entry =>
      if is_unifi_power_entity entry = true ∧ entry.device_id ≠ none then
        { tracked_poe_entities := d.tracked_poe_entities ++ [entity_id],
          added_sensors := d.added_sensors ++ [entity_id] }
      else d

/-- A qualifying UniFi PoE port power registry entry used as the concrete
discovery input. -/
def portEntry : RegistryEntry :=
  { entity_id := "sensor.port_1_poe_power",
    platform := "unifi",
    device_id := some "dev1",
    original_device_class := "power",
    unit_of_measurement := "W",
    disabled_by := none,
    unique_id := some "abc_port_1" }

/-- The result of a config-flow step, as far as the helper's flow is
concerned. -/
inductive FlowResult where
  | abort (reason : String) : FlowResult
  | create_entry (title : String) : FlowResult
  | show_form (step_id : String) : FlowResult
  deriving Repr, DecidableEq

/-- Embedding of `_async_has_unifi_poe_devices`
(`unifi_helper/config_flow.py` lines 17-29): some UniFi-platform `sensor.`
entity with a device whose lower-cased entity id contains `poe` or
`port`. -/
def has_unifi_poe_devices (reg : List RegistryEntry) : Bool :=
  reg.any (fun e =>
    (e.platform == "unifi") && strStartsWith e.entity_id "sensor."
      && e.device_id.isSome
      && (containsSub (strToLower e.entity_id) "poe"
          || containsSub (strToLower e.entity_id) "port"))

/-- Embedding of `async_step_user` (`unifi_helper/config_flow.py` lines
37-52): abort when an entry already exists, abort when no UniFi PoE device
qualifies, create the entry on submitted input, otherwise show the form. -/
def async_step_user (current_entries : ℕ) (reg : List RegistryEntry)
    (user_input : Option Unit) : FlowResult :=
  if current_entries ≠ 0 then FlowResult.abort "single_instance_allowed"
  else if has_unifi_poe_devices reg = false then
    FlowResult.abort "no_unifi_poe_devices"
  else
    match user_input with
    | some _ => FlowResult.create_entry "UniFi Helper"
    | none => FlowResult.show_form "user"

/-- Embedding of `async_step_import` (`unifi_helper/config_flow.py` lines
54-60): abort when an entry already exists, otherwise create the entry. -/
def async_step_import (current_entries : ℕ) : FlowResult :=
  if current_entries ≠ 0 then FlowResult.abort "single_instance_allowed"
  else FlowResult.create_entry "UniFi Helper"

end UnifiEnergy

namespace UnifiEnergy

/-- A single handler step never decreases the total and preserves
non-negativity of the tracked power, provided the incoming value (if numeric)
is non-negative. -/
theorem power_changed_mono (s : AccState) (ev : Option StateVal) (t : ℚ)
    (hs : AccNonneg s) (hev : EventNonneg ev) :
    s.total_energy_kwh ≤ (async_power_changed s ev t).total_energy_kwh
    ∧ AccNonneg (async_power_changed s ev t) := by
  match ev with
  | none => exact ⟨le_refl _, hs⟩
  | some StateVal.unknown => exact ⟨le_refl _, hs⟩
  | some StateVal.unavailable => exact ⟨le_refl _, hs⟩
  | some StateVal.unparseable => exact ⟨le_refl _, hs⟩
  | some (StateVal.numeric v) =>
    have hv : 0 ≤ v := hev v rfl
    constructor
    · show s.total_energy_kwh ≤ (calculate_energy_increment s t (some v)).total_energy_kwh
      rcases ht : s.last_update_time with _ | t0 <;>
        rcases hp : s.last_power_watts with _ | p0
      · simp [calculate_energy_increment, ht, hp]
      · simp [calculate_energy_increment, ht, hp]
      · simp [calculate_energy_increment, ht, hp]
      · by_cases hdt : 0 < t - t0
        · have hp0 : 0 ≤ p0 := hs p0 hp
          have hinc : 0 ≤ p0 * (t - t0) * SECONDS_TO_HOURS * WATTS_TO_KILOWATTS := by
            have h1 : (0:ℚ) ≤ SECONDS_TO_HOURS := by norm_num [SECONDS_TO_HOURS]
            have h2 : (0:ℚ) ≤ WATTS_TO_KILOWATTS := by norm_num [WATTS_TO_KILOWATTS]
            have := mul_nonneg (mul_nonneg (mul_nonneg hp0 (le_of_lt hdt)) h1) h2
            exact this
          simp [calculate_energy_increment, ht, hp, hdt]
          linarith
        · simp [calculate_energy_increment, ht, hp, hdt]
    · intro p hsome
      have hlast : (async_power_changed s (some (StateVal.numeric v)) t).last_power_watts
          = some v := rfl
      rw [hlast] at hsome
      injection hsome with hpv
      exact hpv ▸ hv

/-- Processing a whole sequence of non-negative-valued notifications never
decreases the total and preserves non-negativity of the tracked power. -/
theorem process_samples_mono (evs : List (Option StateVal × ℚ)) (s : AccState)
    (hs : AccNonneg s) (hev : ∀ ev ∈ evs, EventNonneg ev.1) :
    s.total_energy_kwh ≤ (process_samples s evs).total_energy_kwh
    ∧ AccNonneg (process_samples s evs) := by
  induction evs generalizing s with
  | nil => exact ⟨le_refl _, hs⟩
  | cons ev rest ih =>
    have hstep := power_changed_mono s ev.1 ev.2 hs (hev ev (List.mem_cons_self ev rest))
    have hrest := ih (async_power_changed s ev.1 ev.2) hstep.2
      (fun e he => hev e (List.mem_cons_of_mem ev he))
    simp only [process_samples, List.foldl_cons] at hrest ⊢
    exact ⟨le_trans hstep.1 hrest.1, hrest.2⟩

/-- C2 counterexample: the two samples −5 W at t = 0 s and 0 W at t = 3600 s
are both valid (they parse as finite floats) and have non-decreasing
timestamps, yet processing them from the initial state strictly decreases
`total_energy_kwh` (from 0 to −0.005 kWh) with no reset involved: the handler
performs no non-negativity check. -/
theorem c2_negative_power_decreases_total :
    List.Chain' (fun a b => a ≤ b)
      (([(some (StateVal.numeric (-5)), (0:ℚ)),
         (some (StateVal.numeric 0), 3600)] : List (Option StateVal × ℚ)).map Prod.snd)
    ∧ ¬ (accInit.total_energy_kwh
          ≤ (process_samples accInit
              [(some (StateVal.numeric (-5)), 0),
               (some (StateVal.numeric 0), 3600)]).total_energy_kwh) := by
  constructor
  · norm_num
  · norm_num [process_samples, async_power_changed, calculate_energy_increment,
      accInit, SECONDS_TO_HOURS, WATTS_TO_KILOWATTS]

/-- C2 amended: for every sequence of valid samples with non-negative power
values and non-decreasing timestamps, starting from a state whose tracked
power (if any) is non-negative, the total after processing is ≥ its value
before; the finalize pass likewise never decreases it; and immediately after
reset the total is exactly 0.  (The code performs no sign check, so the
original unrestricted statement fails for negative power values.) -/
theorem c2_monotone_between_resets (s : AccState)
    (evs : List (Option StateVal × ℚ))
    (hs : AccNonneg s)
    (hev : ∀ ev ∈ evs, EventNonneg ev.1)
    (hts : List.Chain' (fun a b => a ≤ b) (evs.map Prod.snd)) :
    s.total_energy_kwh ≤ (process_samples s evs).total_energy_kwh
    ∧ (∀ now, s.total_energy_kwh ≤ (will_remove_from_hass s now).total_energy_kwh)
    ∧ (∀ now, (reset_energy s now).total_energy_kwh = 0) := by
  refine ⟨(process_samples_mono evs s hs hev).1, ?_, fun now => rfl⟩
  intro now
  show s.total_energy_kwh ≤ (calculate_energy_increment s now none).total_energy_kwh
  rcases ht : s.last_update_time with _ | t0 <;>
    rcases hp : s.last_power_watts with _ | p0
  · simp [calculate_energy_increment, ht, hp]
  · simp [calculate_energy_increment, ht, hp]
  · simp [calculate_energy_increment, ht, hp]
  · by_cases hdt : 0 < now - t0
    · have hp0 : 0 ≤ p0 := hs p0 hp
      have hinc : 0 ≤ p0 * (now - t0) * SECONDS_TO_HOURS * WATTS_TO_KILOWATTS := by
        have h1 : (0:ℚ) ≤ SECONDS_TO_HOURS := by norm_num [SECONDS_TO_HOURS]
        have h2 : (0:ℚ) ≤ WATTS_TO_KILOWATTS := by norm_num [WATTS_TO_KILOWATTS]
        exact mul_nonneg (mul_nonneg (mul_nonneg hp0 (le_of_lt hdt)) h1) h2
      simp [calculate_energy_increment, ht, hp, hdt]
      linarith
    · simp [calculate_energy_increment, ht, hp, hdt]

/-- C2 witness: the run 10 W at t = 0 s then 20 W at t = 3600 s from the
initial state satisfies all the hypotheses and indeed does not decrease the
total, reset yields exactly 0. -/
theorem c2_monotone_between_resets_witness :
    accInit.total_energy_kwh
      ≤ (process_samples accInit
          [(some (StateVal.numeric 10), 0),
           (some (StateVal.numeric 20), 3600)]).total_energy_kwh
    ∧ (reset_energy accInit 7 ).total_energy_kwh = 0 := by
  have h := c2_monotone_between_resets accInit
      [(some (StateVal.numeric 10), 0), (some (StateVal.numeric 20), 3600)]
      (by intro p hp; simp [accInit] at hp)
      (by
        intro ev hev
        simp only [List.mem_cons, List.not_mem_nil, or_false] at hev
        rcases hev with h1 | h1 <;> subst h1 <;> intro v hv <;>
          simp only [Option.some.injEq, StateVal.numeric.injEq] at hv <;>
          rw [← hv] <;> norm_num)
      (by norm_num)
  exact ⟨h.1, h.2.2 7⟩

end UnifiEnergy

namespace UnifiEnergy

/-- C1: when a previous (last_power_watts, last_update_time) pair exists and
the new sample is a valid finite float arriving after a strictly positive
elapsed time, the event-driven handler adds exactly
`last_power_watts × Δt × (1/3600) × 0.001` to the total — the previous
power value is charged, never the new one — and then the tracking variables
hold the new value and the new timestamp. -/
theorem c1_left_endpoint_increment (s : AccState) (v t t0 p0 : ℚ)
    (h1 : s.last_update_time = some t0)
    (h2 : s.last_power_watts = some p0)
    (hdt : 0 < t - t0) :
    (async_power_changed s (some (StateVal.numeric v)) t).total_energy_kwh
      = s.total_energy_kwh + p0 * (t - t0) * SECONDS_TO_HOURS * WATTS_TO_KILOWATTS
    ∧ (async_power_changed s (some (StateVal.numeric v)) t).last_power_watts = some v
    ∧ (async_power_changed s (some (StateVal.numeric v)) t).last_update_time = some t := by
  simp [async_power_changed, calculate_energy_increment, h1, h2, sub_pos.mp hdt]

/-- C3: reset zeroes the total, stamps the last update time with now, and
preserves the last power reading; a second reset at the same instant still
leaves the total at exactly 0 and the last power reading unchanged. -/
theorem c3_reset_frame (s : AccState) (now : ℚ) :
    (reset_energy s now).total_energy_kwh = 0
    ∧ (reset_energy s now).last_update_time = some now
    ∧ (reset_energy s now).last_power_watts = s.last_power_watts
    ∧ (reset_energy (reset_energy s now) now).total_energy_kwh = 0
    ∧ (reset_energy (reset_energy s now) now).last_update_time = some now
    ∧ (reset_energy (reset_energy s now) now).last_power_watts = s.last_power_watts := by
  simp [reset_energy]

/-- C4 counterexample: from total 0, last power 10 W, last update at t = 0,
running the finalize pass twice at current time 3600 s does not leave the
total at its value after the first pass (0.02 kWh versus 0.01 kWh), because
the finalize pass never refreshes `_last_update_time`. -/
theorem c4_finalize_not_idempotent :
    ¬ ((will_remove_from_hass (will_remove_from_hass
          { total_energy_kwh := 0, last_power_watts := some 10,
            last_update_time := some 0 } 3600) 3600).total_energy_kwh
        = (will_remove_from_hass
          { total_energy_kwh := 0, last_power_watts := some 10,
            last_update_time := some 0 } 3600).total_energy_kwh) := by
  norm_num [will_remove_from_hass, calculate_energy_increment,
    SECONDS_TO_HOURS, WATTS_TO_KILOWATTS]

/-- C4 amended: the finalize pass accumulates up to the current time without
changing `last_power_watts` — but also without changing `last_update_time`,
so repeating it at the same current time adds the same increment again:
the total after two passes is twice the total after one pass minus the total
before, idempotent only when that increment is zero (elapsed time ≤ 0 or
zero last power). -/
theorem c4_finalize_behavior (s : AccState) (now : ℚ) :
    (will_remove_from_hass s now).last_power_watts = s.last_power_watts
    ∧ (will_remove_from_hass s now).last_update_time = s.last_update_time
    ∧ (will_remove_from_hass (will_remove_from_hass s now) now).total_energy_kwh
        = 2 * (will_remove_from_hass s now).total_energy_kwh - s.total_energy_kwh := by
  rcases ht : s.last_update_time with _ | t0 <;> rcases hp : s.last_power_watts with _ | p0
  · simp [will_remove_from_hass, calculate_energy_increment, ht, hp]; ring
  · simp [will_remove_from_hass, calculate_energy_increment, ht, hp]; ring
  · simp [will_remove_from_hass, calculate_energy_increment, ht, hp]; ring
  · by_cases hdt : 0 < now - t0
    · simp [will_remove_from_hass, calculate_energy_increment, ht, hp, hdt]; ring
    · simp [will_remove_from_hass, calculate_energy_increment, ht, hp, hdt]; ring

/-- The finite-fragment handler is exactly the restriction of the full
float-domain handler along the embeddings of states and alphabet. -/
theorem power_changed_agrees_on_finite (s : AccState) (ev : Option StateVal)
    (t : ℚ) :
    async_power_changed_f (AccState.toF s) (ev.map StateVal.toF) t
      = AccState.toF (async_power_changed s ev t) := by
  match ev with
  | none => rfl
  | some StateVal.unknown => rfl
  | some StateVal.unavailable => rfl
  | some StateVal.unparseable => rfl
  | some (StateVal.numeric v) =>
    show calculate_energy_increment_f (AccState.toF s) t (some (PyFloat.fin v))
        = AccState.toF (calculate_energy_increment s t (some v))
    rcases ht : s.last_update_time with _ | t0 <;>
      rcases hp : s.last_power_watts with _ | p0
    · simp [calculate_energy_increment_f, calculate_energy_increment,
        AccState.toF, ht, hp]
    · simp [calculate_energy_increment_f, calculate_energy_increment,
        AccState.toF, ht, hp]
    · simp [calculate_energy_increment_f, calculate_energy_increment,
        AccState.toF, ht, hp]
    · by_cases hdt : 0 < t - t0
      · simp [calculate_energy_increment_f, calculate_energy_increment,
          AccState.toF, ht, hp, hdt, PyFloat.mul, PyFloat.add]
      · simp [calculate_energy_increment_f, calculate_energy_increment,
          AccState.toF, ht, hp, hdt]

/-- C5 counterexample: the state string `"inf"` is not parseable as a finite
float, yet `float("inf")` raises no exception, so the handler does not
discard it: from total 0, last power 10 W, last sample at t = 0 s, an
`"inf"` sample at t = 1800 s mutates the state — the previous 10 W is
charged for the half hour (total 0.005 kWh) and both tracking pointers are
refreshed to `inf` / 1800 s — and the next valid sample (20 W at
t = 3600 s) is then charged at rate `inf`, driving the total to `inf`. -/
theorem c5_nonfinite_sample_processed :
    async_power_changed_f infDemoState
        (some (StateValF.numeric PyFloat.pinf)) 1800 ≠ infDemoState
    ∧ (async_power_changed_f infDemoState
        (some (StateValF.numeric PyFloat.pinf)) 1800).last_power_watts
      = some PyFloat.pinf
    ∧ (async_power_changed_f infDemoState
        (some (StateValF.numeric PyFloat.pinf)) 1800).last_update_time
      = some 1800
    ∧ (async_power_changed_f infDemoState
        (some (StateValF.numeric PyFloat.pinf)) 1800).total_energy_kwh
      = PyFloat.fin (1 / 200)
    ∧ (async_power_changed_f
        (async_power_changed_f infDemoState
          (some (StateValF.numeric PyFloat.pinf)) 1800)
        (some (StateValF.numeric (PyFloat.fin 20))) 3600).total_energy_kwh
      = PyFloat.pinf := by
  refine ⟨?_, rfl, rfl, ?_, ?_⟩
  · intro h
    have h2 := congrArg AccStateF.last_power_watts h
    simp [async_power_changed_f, calculate_energy_increment_f, infDemoState] at h2
  · norm_num [async_power_changed_f, calculate_energy_increment_f, infDemoState,
      PyFloat.add, PyFloat.mul, SECONDS_TO_HOURS, WATTS_TO_KILOWATTS]
  · norm_num [async_power_changed_f, calculate_energy_increment_f, infDemoState,
      PyFloat.add, PyFloat.mul, SECONDS_TO_HOURS, WATTS_TO_KILOWATTS]

/-- C5 amended: a sample that is missing, reports one of the
unavailable/unknown sentinels, or whose value `float()` rejects with
`ValueError`/`TypeError` is discarded with no mutation and never raises,
and the next accepted sample computes its Δt from the last accepted sample;
but a sample whose value `float()` accepts with a non-finite result
(`"inf"`, `"-inf"`, `"nan"`) is not discarded: it is processed like any
numeric sample, so both tracking pointers are refreshed to the non-finite
value and its timestamp, and subsequent intervals are charged at that
non-finite rate. -/
theorem c5_discard_semantics (s : AccStateF) (ev : Option StateValF) (t : ℚ)
    (hinv : DiscardedSample ev) :
    async_power_changed_f s ev t = s
    ∧ (∀ (w : PyFloat) (t2 : ℚ),
        async_power_changed_f (async_power_changed_f s ev t)
            (some (StateValF.numeric w)) t2
          = async_power_changed_f s (some (StateValF.numeric w)) t2)
    ∧ (∀ (p : PyFloat),
        (async_power_changed_f s (some (StateValF.numeric p)) t).last_power_watts
            = some p
        ∧ (async_power_changed_f s (some (StateValF.numeric p)) t).last_update_time
            = some t) := by
  rcases hinv with h | h | h | h <;> subst h <;>
    exact ⟨rfl, fun w t2 => rfl, fun p => ⟨rfl, rfl⟩⟩

/-- C5 witness: an `unavailable` sample at t = 1800 s leaves the concrete
state with last power 10 W and last sample time 0 s untouched, while an
`"inf"` sample at t = 1800 s refreshes the tracking pointers to `inf` and
1800 s. -/
theorem c5_discard_semantics_witness :
    DiscardedSample (some StateValF.unavailable)
    ∧ async_power_changed_f infDemoState (some StateValF.unavailable) 1800
      = infDemoState
    ∧ (async_power_changed_f infDemoState
        (some (StateValF.numeric PyFloat.pinf)) 1800).last_power_watts
      = some PyFloat.pinf
    ∧ (async_power_changed_f infDemoState
        (some (StateValF.numeric PyFloat.pinf)) 1800).last_update_time
      = some 1800 := by
  have hinv : DiscardedSample (some StateValF.unavailable) :=
    Or.inr (Or.inr (Or.inl rfl))
  have h := c5_discard_semantics infDemoState (some StateValF.unavailable) 1800 hinv
  exact ⟨hinv, h.1, (h.2.2 PyFloat.pinf).1, (h.2.2 PyFloat.pinf).2⟩

/-- C6 counterexample: a persisted value of −1.0 is available and parses as a
finite float but is negative; the claim then requires the accumulator to
start at 0.0, yet the restore path of `async_added_to_hass` performs no sign
check and restores −1.0 as the total. -/
theorem c6_negative_restore :
    (restore_total accInit (some (RestoredVal.parses (-1)))).total_energy_kwh ≠ 0
    ∧ (restore_total accInit (some (RestoredVal.parses (-1)))).total_energy_kwh = -1 := by
  constructor
  · norm_num [restore_total, accInit]
  · rfl

/-- C6 amended: on startup the persisted total is adopted if and only if it
is available and `float()` accepts it — with no non-negativity (or sign)
check: any parseable value, including a negative one, is restored as-is.
Otherwise (missing or unparseable) the total stays at its initial 0.0 and
nothing else is mutated; restoration failure only skips the assignment, it is
never fatal. -/
theorem c6_restore_semantics (s : AccState) (v : ℚ) :
    (restore_total s (some (RestoredVal.parses v))).total_energy_kwh = v
    ∧ restore_total s (some RestoredVal.unparseable) = s
    ∧ restore_total s none = s
    ∧ (restore_total accInit (some RestoredVal.unparseable)).total_energy_kwh = 0
    ∧ (restore_total accInit none).total_energy_kwh = 0
    ∧ (restore_total s (some (RestoredVal.parses v))).last_power_watts
        = s.last_power_watts
    ∧ (restore_total s (some (RestoredVal.parses v))).last_update_time
        = s.last_update_time :=
  ⟨rfl, rfl, rfl, rfl, rfl, rfl, rfl⟩

/-- C8 counterexample: with an unrounded running total of 12.3456 kWh, the
emit/restore cycle yields 12.346 (the persisted value is the `native_value`,
which is `round(total, 3)`), not the pre-restart unrounded total. -/
theorem c8_roundtrip_not_exact :
    (restart_cycle { total_energy_kwh := 123456 / 10000,
                     last_power_watts := none,
                     last_update_time := none }).total_energy_kwh
      ≠ 123456 / 10000
    ∧ (restart_cycle { total_energy_kwh := 123456 / 10000,
                       last_power_watts := none,
                       last_update_time := none }).total_energy_kwh
      = 12346 / 1000 := by
  constructor <;>
    norm_num [restart_cycle, restore_total, native_value, pyRound3, accInit]

/-- C8 amended: the displayed value is the running total rounded to 3 decimal
places and, within a session, rounding never feeds back into accumulation
(a handler step's increment is independent of the stored total); but what is
persisted is the rounded display value, so an emit/restore cycle yields the
3-decimal rounding of the pre-restart total — the round-trip is exact
precisely when the total is already at 3-decimal resolution, as with 12.345. -/
theorem c8_display_rounding (s : AccState) :
    native_value s = pyRound3 s.total_energy_kwh
    ∧ (restart_cycle s).total_energy_kwh = pyRound3 s.total_energy_kwh
    ∧ (pyRound3 s.total_energy_kwh = s.total_energy_kwh →
        (restart_cycle s).total_energy_kwh = s.total_energy_kwh)
    ∧ (∀ (T v t : ℚ),
        (async_power_changed { s with total_energy_kwh := T }
            (some (StateVal.numeric v)) t).total_energy_kwh - T
          = (async_power_changed s (some (StateVal.numeric v)) t).total_energy_kwh
              - s.total_energy_kwh)
    ∧ (restart_cycle { total_energy_kwh := 12345 / 1000,
                       last_power_watts := none,
                       last_update_time := none }).total_energy_kwh
        = 12345 / 1000 := by
  refine ⟨rfl, rfl, fun h => h ▸ rfl, ?_,
    by norm_num [restart_cycle, restore_total, native_value, pyRound3, accInit]⟩
  intro T v t
  show (calculate_energy_increment { s with total_energy_kwh := T } t
          (some v)).total_energy_kwh - T
      = (calculate_energy_increment s t (some v)).total_energy_kwh
          - s.total_energy_kwh
  rcases ht : s.last_update_time with _ | t0 <;>
    rcases hp : s.last_power_watts with _ | p0
  · simp [calculate_energy_increment, ht, hp]
  · simp [calculate_energy_increment, ht, hp]
  · simp [calculate_energy_increment, ht, hp]
  · by_cases hdt : 0 < t - t0
    · simp [calculate_energy_increment, ht, hp, hdt]
    · simp [calculate_energy_increment, ht, hp, hdt]

/-- C8 witness: a persisted total of exactly 12.345 kWh restores to exactly
12.345 kWh across the emit/restore cycle. -/
theorem c8_display_rounding_witness :
    pyRound3 (12345 / 1000 : ℚ) = 12345 / 1000
    ∧ (restart_cycle { total_energy_kwh := 12345 / 1000,
                       last_power_watts := none,
                       last_update_time := none }).total_energy_kwh
      = 12345 / 1000 := by
  refine ⟨by norm_num [pyRound3], ?_⟩
  have h := c8_display_rounding
      { total_energy_kwh := 12345 / 1000, last_power_watts := none,
        last_update_time := none }
  exact h.2.2.1 (by norm_num [pyRound3])

/-- C1 witness: 10.0 W at t = 0 s then 20.0 W at t = 3600 s leaves the total
at exactly 0.010 kWh, with tracking at 20 W / 3600 s. -/
theorem c1_left_endpoint_increment_witness :
    (async_power_changed (async_power_changed accInit (some (StateVal.numeric 10)) 0)
        (some (StateVal.numeric 20)) 3600).total_energy_kwh = 1 / 100
    ∧ (async_power_changed (async_power_changed accInit (some (StateVal.numeric 10)) 0)
        (some (StateVal.numeric 20)) 3600).last_power_watts = some 20
    ∧ (async_power_changed (async_power_changed accInit (some (StateVal.numeric 10)) 0)
        (some (StateVal.numeric 20)) 3600).last_update_time = some 3600 := by
  have h := c1_left_endpoint_increment
      (async_power_changed accInit (some (StateVal.numeric 10)) 0) 20 3600 0 10
      (by simp [async_power_changed, calculate_energy_increment, accInit])
      (by simp [async_power_changed, calculate_energy_increment, accInit])
      (by norm_num)
  refine ⟨?_, h.2.1, h.2.2⟩
  rw [h.1]
  norm_num [async_power_changed, calculate_energy_increment, accInit,
    SECONDS_TO_HOURS, WATTS_TO_KILOWATTS]

/-- C7 counterexample: in the periodic poll variant, a tick whose elapsed
time is negative (last tick at t = 10 s, current time t = 0 s) with one
valid reading of 360 W is not a no-op: `_async_update` has no `Δt > 0`
guard, so it adds `360 × (−10) / 3600 / 1000` and the total decreases to
−0.001 kWh. -/
theorem c7_poll_negative_dt_not_noop :
    (async_update { total_energy_kwh := 0, last_update := some 10 } 0
        [some (StateVal.numeric 360)]).total_energy_kwh ≠ 0
    ∧ (async_update { total_energy_kwh := 0, last_update := some 10 } 0
        [some (StateVal.numeric 360)]).total_energy_kwh < 0 := by
  constructor <;>
    norm_num [async_update, sum_valid_power, SECONDS_TO_HOURS, WATTS_TO_KILOWATTS]

/-- C7 amended: on a non-positive elapsed time the event-driven handler
skips accumulation, leaves the total unchanged and still refreshes both
tracking pointers; the poll variant also refreshes its pointer and leaves
the total unchanged when the elapsed time is exactly zero, but when it is
negative and at least one reading is valid it adds the (negative) increment
`total_power × Δt × (1/3600) × 0.001` instead of skipping. -/
theorem c7_nonpositive_dt (s : AccState) (v t t0 p0 : ℚ)
    (h1 : s.last_update_time = some t0)
    (h2 : s.last_power_watts = some p0)
    (hdt : t - t0 ≤ 0) :
    (async_power_changed s (some (StateVal.numeric v)) t).total_energy_kwh
        = s.total_energy_kwh
    ∧ (async_power_changed s (some (StateVal.numeric v)) t).last_power_watts = some v
    ∧ (async_power_changed s (some (StateVal.numeric v)) t).last_update_time = some t
    ∧ (∀ (ag : AggState) (rs : List (Option StateVal)),
        ag.last_update = some t0 →
          (async_update ag t0 rs).total_energy_kwh = ag.total_energy_kwh
          ∧ (async_update ag t0 rs).last_update = some t0)
    ∧ (∀ (ag : AggState) (rs : List (Option StateVal)),
        ag.last_update = some t0 → 0 < (sum_valid_power rs).2 →
          (async_update ag t rs).total_energy_kwh
            = ag.total_energy_kwh + (sum_valid_power rs).1 * (t - t0)
                * SECONDS_TO_HOURS * WATTS_TO_KILOWATTS
          ∧ (async_update ag t rs).last_update = some t) := by
  have hdt2 : ¬ 0 < t - t0 := not_lt.mpr hdt
  refine ⟨?_, rfl, rfl, ?_, ?_⟩
  · show (calculate_energy_increment s t (some v)).total_energy_kwh
        = s.total_energy_kwh
    simp [calculate_energy_increment, h1, h2, hdt2]
  · intro ag rs hag
    by_cases hn : 0 < (sum_valid_power rs).2
    · constructor <;> simp [async_update, hag, hn]
    · constructor <;> simp [async_update, hag, hn]
  · intro ag rs hag hn
    constructor <;> simp [async_update, hag, hn]

/-- C7 witness: with a last sample of 10 W at t = 100 s, a 7 W sample again
at t = 100 s leaves the total at 5 kWh with pointers refreshed, and a poll
tick at its own last-tick time leaves the aggregate total at 0. -/
theorem c7_nonpositive_dt_witness :
    (async_power_changed { total_energy_kwh := 5, last_power_watts := some 10,
                           last_update_time := some 100 }
        (some (StateVal.numeric 7)) 100).total_energy_kwh = 5
    ∧ (async_power_changed { total_energy_kwh := 5, last_power_watts := some 10,
                             last_update_time := some 100 }
        (some (StateVal.numeric 7)) 100).last_power_watts = some 7
    ∧ (async_update { total_energy_kwh := 0, last_update := some 100 } 100
        [some (StateVal.numeric 360)]).total_energy_kwh = 0 := by
  have h := c7_nonpositive_dt
      { total_energy_kwh := 5, last_power_watts := some 10,
        last_update_time := some 100 }
      7 100 100 10 rfl rfl (by norm_num)
  refine ⟨h.1, h.2.1, ?_⟩
  exact (h.2.2.2.1 { total_energy_kwh := 0, last_update := some 100 }
      [some (StateVal.numeric 360)] rfl).1

/-- C9 counterexample: with one qualifying power entity in the registry,
running startup discovery twice from the initial bookkeeping creates two
accumulators bound to that same source: the second `async_setup_entry` call
re-initialises the claimed-sources set to empty and so re-creates a sensor
for the already-claimed entity. -/
theorem c9_double_setup_double_binding :
    (async_setup_entry [portEntry]
        (async_setup_entry [portEntry] discInit)).added_sensors
      = ["sensor.port_1_poe_power", "sensor.port_1_poe_power"]
    ∧ 1 < ((async_setup_entry [portEntry]
        (async_setup_entry [portEntry] discInit)).added_sensors).count
          "sensor.port_1_poe_power" := by
  constructor <;> decide

/-- C9 amended: within a single startup scan over a duplicate-free registry
each source is bound to at most one accumulator (the freshly created
bindings are duplicate-free), and a source already in the claimed set is
skipped by the registry-change handler before any accumulator is created
for it; but re-running startup discovery re-initialises the claimed set and
creates a second accumulator for every qualifying source. -/
theorem c9_discovery_dedup (reg : List RegistryEntry) (d : DiscoveryState)
    (entity_id : String)
    (hnodup : (reg.map (fun e => e.entity_id)).Nodup)
    (htracked : entity_id ∈ d.tracked_poe_entities) :
    ((async_setup_entry reg d).added_sensors.drop d.added_sensors.length).Nodup
    ∧ entity_registry_updated_create reg d entity_id = d
    ∧ (async_setup_entry reg d).added_sensors
        = d.added_sensors
          ++ ((reg.filter (fun e => is_unifi_power_entity e)).map
                (fun e => e.entity_id)) := by
  refine ⟨?_, ?_, ?_⟩
  · have hq : ((reg.filter (fun e => is_unifi_power_entity e)).map
        (fun e => e.entity_id)).Nodup :=
      hnodup.sublist (List.Sublist.map _ (List.filter_sublist reg))
    simpa [async_setup_entry] using hq
  · simp [entity_registry_updated_create, htracked]
  · rfl

/-- C9 witness: with the claimed set already holding the one qualifying
entity, the registry-create handler is a no-op for it, and one setup scan
of the singleton registry binds it exactly once. -/
theorem c9_discovery_dedup_witness :
    entity_registry_updated_create [portEntry]
        { tracked_poe_entities := ["sensor.port_1_poe_power"],
          added_sensors := ["sensor.port_1_poe_power"] }
        "sensor.port_1_poe_power"
      = { tracked_poe_entities := ["sensor.port_1_poe_power"],
          added_sensors := ["sensor.port_1_poe_power"] }
    ∧ ((async_setup_entry [portEntry]
        { tracked_poe_entities := ["sensor.port_1_poe_power"],
          added_sensors := ["sensor.port_1_poe_power"] }).added_sensors.drop
            1).Nodup := by
  have h := c9_discovery_dedup [portEntry]
      { tracked_poe_entities := ["sensor.port_1_poe_power"],
        added_sensors := ["sensor.port_1_poe_power"] }
      "sensor.port_1_poe_power" (by decide) (by decide)
  exact ⟨h.2.1, h.1⟩

/-- C10: whenever a config entry for the helper already exists, both the
user step and the import step abort with reason `single_instance_allowed`
and neither creates an entry; and with no existing entry, the user step
aborts with `no_unifi_poe_devices` when no qualifying UniFi PoE entity is
registered. -/
theorem c10_single_instance (n : ℕ) (reg : List RegistryEntry)
    (input : Option Unit) (hn : 0 < n) :
    async_step_user n reg input = FlowResult.abort "single_instance_allowed"
    ∧ async_step_import n = FlowResult.abort "single_instance_allowed"
    ∧ (∀ title, async_step_user n reg input ≠ FlowResult.create_entry title)
    ∧ (∀ title, async_step_import n ≠ FlowResult.create_entry title)
    ∧ (has_unifi_poe_devices reg = false →
        async_step_user 0 reg input = FlowResult.abort "no_unifi_poe_devices") := by
  have hne : n ≠ 0 := Nat.pos_iff_ne_zero.mp hn
  refine ⟨?_, ?_, ?_, ?_, ?_⟩
  · simp [async_step_user, hne]
  · simp [async_step_import, hne]
  · intro title
    simp [async_step_user, hne]
  · intro title
    simp [async_step_import, hne]
  · intro hpoe
    simp [async_step_user, hpoe]

/-- C10 witness: with one existing entry and an empty registry, both steps
abort with `single_instance_allowed`, and with no entry and an empty
registry the user step aborts with `no_unifi_poe_devices`. -/
theorem c10_single_instance_witness :
    async_step_user 1 [] none = FlowResult.abort "single_instance_allowed"
    ∧ async_step_import 1 = FlowResult.abort "single_instance_allowed"
    ∧ async_step_user 0 [] none = FlowResult.abort "no_unifi_poe_devices" := by
  have h := c10_single_instance 1 [] none (by norm_num)
  exact ⟨h.1, h.2.1, h.2.2.2.2 rfl⟩

end UnifiEnergy
